import Mathlib

/-!
Verification of the Python Work Queue binding
(`work_queue/src/python/work_queue.binding.py`).

The binding is a thin Python layer over the C work-queue engine.  Python
integers are embedded as `Int` (Python `|`, `&`, `~` are `Int.lor`,
`Int.land`, `Int.lnot`), optional arguments as `Option`, Python `dict`
state as functions `Nat → Option _`, and raised exceptions as
`Except String _`.  Calls into the C engine (which is outside the binding
file) are represented by their argument records or by oracle parameters
standing for the value the C call returns; the modelled parts of the C
engine itself are marked `Modelled from the spec:` in their doc comments.
-/

namespace WorkQueueBinding

/-- Modelled from the spec: the file-flag constants come from the C header
work_queue.h, which is not part of the binding file.  CACHE is a single-bit
flag distinct from the other flag bits, and NOCACHE is the absence of any
flag bits. -/
def WORK_QUEUE_CACHE : Int := 1

/-- Modelled from the spec: absence of special file handling (see
work_queue.h, outside the binding file). -/
def WORK_QUEUE_NOCACHE : Int := 0

/-- Modelled from the spec: direction tag for input files, from the C
header work_queue.h (outside the binding file). -/
def WORK_QUEUE_INPUT : Int := 0

/-- Modelled from the spec: direction tag for output files, from the C
header work_queue.h (outside the binding file). -/
def WORK_QUEUE_OUTPUT : Int := 1

/-- Embeds `Task._determine_file_flags(flags, cache)`:
`flags` defaults to `WORK_QUEUE_CACHE` when `None`; then the CACHE bit is
forced on when `cache` is true (`flags |= WORK_QUEUE_CACHE`) and forced
off otherwise (`flags &= ~WORK_QUEUE_CACHE`). -/
def determine_file_flags (flags : Option Int) (cache : Bool) : Int :=
  let flags1 := match flags with
    | none => WORK_QUEUE_CACHE
    | some f => f
  if cache then Int.lor flags1 WORK_QUEUE_CACHE
  else Int.land flags1 (Int.lnot WORK_QUEUE_CACHE)

/-- Embeds `os.path.basename` for slash-separated paths: the characters
after the last `/` (the whole string when there is no `/`). -/
def basename (path : String) : String :=
  String.mk (path.data.foldl (fun acc c => if c = '/' then [] else acc ++ [c]) [])

/-- Argument record of the external call
`work_queue_task_specify_file(task, local_name, remote_name, type, flags)`. -/
structure FileSpecCall where
  local_name : String
  remote_name : String
  ftype : Int
  flags : Int
deriving DecidableEq, Repr

/-- Argument record of the external call
`work_queue_task_specify_file_piece(task, local_name, remote_name,
start_byte, end_byte, type, flags)`. -/
structure FilePieceCall where
  local_name : String
  remote_name : String
  start_byte : Int
  end_byte : Int
  ftype : Int
  flags : Int
deriving DecidableEq, Repr

/-- Argument record of the external call
`work_queue_task_specify_directory(task, local_name, remote_name, type,
flags, recursive)`. -/
structure DirSpecCall where
  local_name : String
  remote_name : String
  ftype : Int
  flags : Int
  recursive : Int
deriving DecidableEq, Repr

/-- Embeds `Task.specify_file(local_name, remote_name=None, type=None,
flags=None, cache=True)`: `remote_name` defaults to
`os.path.basename(local_name)`, `type` defaults to `WORK_QUEUE_INPUT`,
`flags` go through `_determine_file_flags`; the resulting external call is
returned as its argument record. -/
def specify_file (local_name : String) (remote_name : Option String)
    (ftype : Option Int) (flags : Option Int) (cache : Bool) : FileSpecCall :=
  let remote := match remote_name with
    | none => basename local_name
    | some r => r
  let t := match ftype with
    | none => WORK_QUEUE_INPUT
    | some v => v
  { local_name := local_name
    remote_name := remote
    ftype := t
    flags := determine_file_flags flags cache }

/-- Embeds `Task.specify_file_piece(local_name, remote_name=None,
start_byte=0, end_byte=0, type=None, flags=None, cache=True)`. -/
def specify_file_piece (local_name : String) (remote_name : Option String)
    (start_byte end_byte : Int) (ftype : Option Int) (flags : Option Int)
    (cache : Bool) : FilePieceCall :=
  let remote := match remote_name with
    | none => basename local_name
    | some r => r
  let t := match ftype with
    | none => WORK_QUEUE_INPUT
    | some v => v
  { local_name := local_name
    remote_name := remote
    start_byte := start_byte
    end_byte := end_byte
    ftype := t
    flags := determine_file_flags flags cache }

/-- Embeds `Task.specify_input_file(local_name, remote_name=None,
flags=None, cache=True)`, which is literally
`self.specify_file(local_name, remote_name, WORK_QUEUE_INPUT, flags, cache)`. -/
def specify_input_file (local_name : String) (remote_name : Option String)
    (flags : Option Int) (cache : Bool) : FileSpecCall :=
  specify_file local_name remote_name (some WORK_QUEUE_INPUT) flags cache

/-- Embeds `Task.specify_output_file(local_name, remote_name=None,
flags=None, cache=True)`, which is literally
`self.specify_file(local_name, remote_name, WORK_QUEUE_OUTPUT, flags, cache)`. -/
def specify_output_file (local_name : String) (remote_name : Option String)
    (flags : Option Int) (cache : Bool) : FileSpecCall :=
  specify_file local_name remote_name (some WORK_QUEUE_OUTPUT) flags cache

/-- Embeds `Task.specify_directory(local_name, remote_name=None, type=None,
flags=None, recursive=0, cache=True)`. -/
def specify_directory (local_name : String) (remote_name : Option String)
    (ftype : Option Int) (flags : Option Int) (recursive : Int)
    (cache : Bool) : DirSpecCall :=
  let remote := match remote_name with
    | none => basename local_name
    | some r => r
  let t := match ftype with
    | none => WORK_QUEUE_INPUT
    | some v => v
  { local_name := local_name
    remote_name := remote
    ftype := t
    flags := determine_file_flags flags cache
    recursive := recursive }

/-- Python-level Task object: wraps the C task handle stored in
`self._task` (`none` is Python `None`). -/
structure PyTask where
  _task : Option Nat
deriving DecidableEq, Repr

/-- Embeds `Task.__init__(command)`: `self._task = None`, then
`self._task = work_queue_task_create(command)` (external; the oracle
`createResult` is the value it returns, `none` for a null object), and a
falsy result raises, caught and re-raised as the fixed exception. -/
def Task_init (command : String) (createResult : Option Nat) :
    Except String PyTask :=
  match createResult with
  | none => Except.error "Unable to create internal Task structure"
  | some h => Except.ok { _task := some h }

/-- Python-level WorkQueue object: the binding-side attributes set by
`WorkQueue.__init__` (`self._shutdown`, `self._work_queue`, `self._stats`,
`self._stats_hierarchy`, `self._task_table`); the task table dict is a map
from taskid to the Python Task object. -/
structure WorkQueueObj where
  _shutdown : Bool
  _work_queue : Option Nat
  _stats : Option Nat
  _stats_hierarchy : Option Nat
  _task_table : Nat → Option PyTask

/-- Default of the `shutdown` keyword of `WorkQueue.__init__`
(`shutdown=False`). -/
def WorkQueue_shutdown_default : Bool := false

/-- Embeds `WorkQueue.__init__(port, name, catalog, exclusive, shutdown)`:
stores the flag, calls `work_queue_create(port)` (external; oracle
`createResult`), allocates the stats structs, starts an empty task table;
a falsy queue handle raises inside the `try`, re-raised with the port in
the message.  The `name` and `catalog` arguments only feed external
`work_queue_specify_name` / `work_queue_specify_master_mode` calls and
`exclusive` is unused in the binding body. -/
def WorkQueue_init (createResult : Option Nat) (port : Int)
    (name : Option String) (catalog : Bool) (exclusive : Bool)
    (shutdown : Bool) : Except String WorkQueueObj :=
  match createResult with
  | none =>
    Except.error
      ("Unable to create internal Work Queue structure: Could not create work_queue on port "
        ++ toString port)
  | some h =>
    Except.ok
      { _shutdown := shutdown
        _work_queue := some h
        _stats := some 0
        _stats_hierarchy := some 0
        _task_table := fun _ => none }

/-- Embeds `WorkQueue.submit(task)`:
`taskid = work_queue_submit(self._work_queue, task._task)` (external;
oracle `taskid`), then `self._task_table[taskid] = task`, returning the
taskid. -/
def submit (q : WorkQueueObj) (task : PyTask) (taskid : Nat) :
    WorkQueueObj × Nat :=
  ({ q with
      _task_table := fun k => if k = taskid then some task else q._task_table k },
    taskid)

/-- Embeds `WorkQueue.wait(timeout)`:
`task_pointer = work_queue_wait(self._work_queue, timeout)` (external; the
oracle carries the completed taskid, or `none` when the timeout elapsed).
On a completed task the table entry is looked up (a missing key raises
KeyError) and deleted, and the Python Task is returned; on timeout `None`
is returned and the table is untouched. -/
def wait (q : WorkQueueObj) (task_pointer : Option Nat) :
    Except String (Option PyTask × WorkQueueObj) :=
  match task_pointer with
  | none => Except.ok (none, q)
  | some taskid =>
    match q._task_table taskid with
    | none => Except.error "KeyError"
    | some task =>
      Except.ok (some task,
        { q with
            _task_table := fun k => if k = taskid then none else q._task_table k })

/-- Embeds `WorkQueue.cancel_by_taskid(id)`: returns the result of the
external `work_queue_cancel_by_taskid` call (oracle `extResult`) and
touches no binding-side state. -/
def cancel_by_taskid (q : WorkQueueObj) (id : Int) (extResult : Int) :
    Int × WorkQueueObj :=
  (extResult, q)

/-- Embeds `WorkQueue.cancel_by_tasktag(tag)`: returns the result of the
external `work_queue_cancel_by_tasktag` call (oracle `extResult`) and
touches no binding-side state. -/
def cancel_by_tasktag (q : WorkQueueObj) (tag : String) (extResult : Int) :
    Int × WorkQueueObj :=
  (extResult, q)

/-- External calls `WorkQueue.__free_queue` can issue, in order. -/
inductive ExtCall where
  | shutdown_workers_call (handle : Nat) (n : Int)
  | work_queue_delete_call (handle : Nat)
deriving DecidableEq, Repr

/-- Embeds `WorkQueue.__free_queue`: when the queue handle is present,
`self.shutdown_workers(0)` (which calls
`work_queue_shut_down_workers(self._work_queue, 0)`) runs first if
`self._shutdown` was set, then `work_queue_delete(self._work_queue)`;
the result is the ordered list of external calls issued. -/
def free_queue (q : WorkQueueObj) : List ExtCall :=
  match q._work_queue with
  | none => []
  | some h =>
    (if q._shutdown then [ExtCall.shutdown_workers_call h 0] else [])
      ++ [ExtCall.work_queue_delete_call h]

end WorkQueueBinding

namespace WorkQueueBinding

/-- Normal form of `determine_file_flags` with the `None` default folded
into `Option.getD`. -/
theorem determine_file_flags_eq (flags : Option Int) (cache : Bool) :
    determine_file_flags flags cache =
      if cache then Int.lor (flags.getD WORK_QUEUE_CACHE) WORK_QUEUE_CACHE
      else Int.land (flags.getD WORK_QUEUE_CACHE) (Int.lnot WORK_QUEUE_CACHE) := by
  cases flags <;> rfl

/-- Bit decomposition of the CACHE constant: only bit 0 is set. -/
theorem WORK_QUEUE_CACHE_testBit (i : Nat) :
    (WORK_QUEUE_CACHE).testBit i = (i = 0 : Bool) := by
  cases i with
  | zero => decide
  | succ n =>
    show Int.testBit 1 (n + 1) = _
    rw [show (1 : Int) = Int.ofNat 1 by rfl, Int.testBit]
    simp [Nat.testBit_succ]

/-- C8: `_determine_file_flags` sets the CACHE bit (bit 0, since
`WORK_QUEUE_CACHE = 1`) exactly when `cache` is true, preserves every
other bit of `flags` (with `None` treated as `WORK_QUEUE_CACHE`), and in
particular `cache=True` overrides an explicit `WORK_QUEUE_NOCACHE`. -/
theorem determine_file_flags_cache_bit (flags : Option Int) (cache : Bool) :
    ((determine_file_flags flags cache).testBit 0 = cache) ∧
    (∀ i : Nat, i ≠ 0 →
      (determine_file_flags flags cache).testBit i
        = (flags.getD WORK_QUEUE_CACHE).testBit i) ∧
    determine_file_flags (some WORK_QUEUE_NOCACHE) true = WORK_QUEUE_CACHE := by
  refine ⟨?_, ?_, by decide⟩
  · rw [determine_file_flags_eq]
    cases cache <;>
      simp [Int.testBit_land, Int.testBit_lor, Int.testBit_lnot,
        WORK_QUEUE_CACHE_testBit]
  · intro i hi
    rw [determine_file_flags_eq]
    cases cache <;>
      simp [Int.testBit_land, Int.testBit_lor, Int.testBit_lnot,
        WORK_QUEUE_CACHE_testBit, hi]

/-- Witness for C8 at concrete inputs: flags = WORK_QUEUE_NOCACHE,
cache = true, checking bit 1 preservation at i = 1. -/
theorem determine_file_flags_cache_bit_witness :
    ((determine_file_flags (some WORK_QUEUE_NOCACHE) true).testBit 0 = true) ∧
    ((determine_file_flags (some WORK_QUEUE_NOCACHE) true).testBit 1
      = ((some WORK_QUEUE_NOCACHE : Option Int).getD WORK_QUEUE_CACHE).testBit 1) := by
  refine ⟨(determine_file_flags_cache_bit (some WORK_QUEUE_NOCACHE) true).1, ?_⟩
  exact (determine_file_flags_cache_bit (some WORK_QUEUE_NOCACHE) true).2.1 1 (by decide)

/-- C9: for `specify_file`, `specify_file_piece` and `specify_directory`,
omitted or `None` remote_name defaults to `basename local_name` and omitted
or `None` type defaults to `WORK_QUEUE_INPUT`; `specify_input_file` and
`specify_output_file` are `specify_file` with the type fixed to
input/output. -/
theorem specify_file_defaults
    (l : String) (r : Option String) (t : Option Int) (f : Option Int)
    (sb eb rec : Int) (c : Bool) :
    ((specify_file l none t f c).remote_name = basename l) ∧
    ((specify_file_piece l none sb eb t f c).remote_name = basename l) ∧
    ((specify_directory l none t f rec c).remote_name = basename l) ∧
    ((specify_file l r none f c).ftype = WORK_QUEUE_INPUT) ∧
    ((specify_file_piece l r sb eb none f c).ftype = WORK_QUEUE_INPUT) ∧
    ((specify_directory l r none f rec c).ftype = WORK_QUEUE_INPUT) ∧
    (specify_input_file l r f c = specify_file l r (some WORK_QUEUE_INPUT) f c) ∧
    (specify_output_file l r f c = specify_file l r (some WORK_QUEUE_OUTPUT) f c) := by
  refine ⟨rfl, rfl, rfl, rfl, rfl, rfl, rfl, rfl⟩

/-- C1: `submit` registers the Python Task under the taskid the engine
assigned; when `wait` gets a completed task from the engine whose id is
registered, it returns exactly the registered (submitted) Task object and
deletes only that entry; when the engine reports a timeout, `wait` returns
`None` and the registry is unchanged. -/
theorem wait_returns_submitted_task (q : WorkQueueObj) (task : PyTask)
    (taskid : Nat) :
    ((submit q task taskid).1._task_table taskid = some task) ∧
    (∀ q1 : WorkQueueObj, q1._task_table taskid = some task →
      ∃ q2, wait q1 (some taskid) = Except.ok (some task, q2) ∧
        q2._task_table taskid = none ∧
        ∀ k, k ≠ taskid → q2._task_table k = q1._task_table k) ∧
    (wait q none = Except.ok (none, q)) := by
  refine ⟨by simp [submit], ?_, rfl⟩
  intro q1 hq1
  refine ⟨{ q1 with
      _task_table := fun k => if k = taskid then none else q1._task_table k },
    ?_, by simp, ?_⟩
  · simp only [wait, hq1]
  · intro k hk
    simp [hk]

/-- Concrete queue object used by witnesses: empty task table. -/
def q_empty : WorkQueueObj :=
  { _shutdown := false
    _work_queue := some 1
    _stats := some 0
    _stats_hierarchy := some 0
    _task_table := fun _ => none }

/-- Witness for C1: submit task 7 into the empty queue, then wait returns
it and clears its entry. -/
theorem wait_returns_submitted_task_witness :
    ∃ q2, wait (submit q_empty ⟨some 5⟩ 7).1 (some 7)
        = Except.ok (some ⟨some 5⟩, q2) ∧
      q2._task_table 7 = none ∧
      ∀ k, k ≠ 7 → q2._task_table k = (submit q_empty ⟨some 5⟩ 7).1._task_table k :=
  (wait_returns_submitted_task q_empty ⟨some 5⟩ 7).2.1
    (submit q_empty ⟨some 5⟩ 7).1
    (wait_returns_submitted_task q_empty ⟨some 5⟩ 7).1

/-- C5: when the underlying create call returns no object, the `Task` and
`WorkQueue` constructors raise (return an error, never an object); when it
returns an object, construction succeeds with the handle installed. -/
theorem init_failure_surfaces (command : String) (port : Int)
    (name : Option String) (catalog exclusive shutdown : Bool) (h : Nat) :
    (Task_init command none
      = Except.error "Unable to create internal Task structure") ∧
    (Task_init command (some h) = Except.ok { _task := some h }) ∧
    (WorkQueue_init none port name catalog exclusive shutdown
      = Except.error
          ("Unable to create internal Work Queue structure: Could not create work_queue on port "
            ++ toString port)) ∧
    (∃ qobj, WorkQueue_init (some h) port name catalog exclusive shutdown
        = Except.ok qobj ∧ qobj._work_queue = some h) := by
  refine ⟨rfl, rfl, rfl, ⟨_, rfl, rfl⟩⟩

/-- C6: the constructor stores the auto-shutdown flag (disabled by
default), and `__free_queue` issues a shutdown order iff that flag is set,
always before the queue delete; with the flag unset only the delete is
issued. -/
theorem free_queue_shutdown_iff (q : WorkQueueObj) (h : Nat) :
    (WorkQueue_shutdown_default = false) ∧
    (∀ createResult port name catalog exclusive sd qobj,
      WorkQueue_init createResult port name catalog exclusive sd
          = Except.ok qobj →
      qobj._shutdown = sd) ∧
    (q._work_queue = some h →
      ((ExtCall.shutdown_workers_call h 0 ∈ free_queue q ↔ q._shutdown = true) ∧
       (q._shutdown = true →
         free_queue q
           = [ExtCall.shutdown_workers_call h 0, ExtCall.work_queue_delete_call h]) ∧
       (q._shutdown = false →
         free_queue q = [ExtCall.work_queue_delete_call h]))) := by
  refine ⟨rfl, ?_, ?_⟩
  · intro createResult port name catalog exclusive sd qobj hok
    cases createResult with
    | none => exact absurd hok (by simp [WorkQueue_init])
    | some hh =>
      simp only [WorkQueue_init, Except.ok.injEq] at hok
      rw [← hok]
  · intro hq
    simp only [free_queue, hq]
    cases hsd : q._shutdown <;> simp

/-- Concrete queue objects used by the C6 witness. -/
def q_with_shutdown : WorkQueueObj :=
  { _shutdown := true
    _work_queue := some 2
    _stats := some 0
    _stats_hierarchy := some 0
    _task_table := fun _ => none }

/-- Witness for C6: with the flag set the trace is shutdown then delete;
with the flag unset (the default object) it is delete alone; and the
constructor stores the default flag value false. -/
theorem free_queue_shutdown_iff_witness :
    (free_queue q_with_shutdown
      = [ExtCall.shutdown_workers_call 2 0, ExtCall.work_queue_delete_call 2]) ∧
    (free_queue q_empty = [ExtCall.work_queue_delete_call 1]) ∧
    ((⟨WorkQueue_shutdown_default, some 3, some 0, some 0, fun _ => none⟩ :
        WorkQueueObj)._shutdown = false) :=
  ⟨((free_queue_shutdown_iff q_with_shutdown 2).2.2 rfl).2.1 rfl,
   ((free_queue_shutdown_iff q_empty 1).2.2 rfl).2.2 rfl,
   (free_queue_shutdown_iff q_empty 1).2.1 (some 3) 0 none false true
     WorkQueue_shutdown_default
     ⟨WorkQueue_shutdown_default, some 3, some 0, some 0, fun _ => none⟩ rfl⟩

/-- C10: the binding-side task table is changed only by `submit` (adds
exactly the entry for the returned taskid) and by a `wait` that returns a
task (removes exactly that entry); `cancel_by_taskid` and
`cancel_by_tasktag` leave the whole binding object, hence the table,
unchanged, and a timed-out `wait` leaves it unchanged too. -/
theorem task_table_frame (q : WorkQueueObj) (id r1 r2 : Int) (tag : String)
    (task : PyTask) (taskid : Nat) :
    ((cancel_by_taskid q id r1).2 = q) ∧
    ((cancel_by_tasktag q tag r2).2 = q) ∧
    ((submit q task taskid).1._task_table taskid = some task) ∧
    (∀ k, k ≠ taskid →
      (submit q task taskid).1._task_table k = q._task_table k) ∧
    (∀ tid t q2, wait q (some tid) = Except.ok (some t, q2) →
      q2._task_table tid = none ∧
      ∀ k, k ≠ tid → q2._task_table k = q._task_table k) ∧
    (wait q none = Except.ok (none, q)) := by
  refine ⟨rfl, rfl, by simp [submit], ?_, ?_, rfl⟩
  · intro k hk
    simp [submit, hk]
  · intro tid t q2 hw
    cases htbl : q._task_table tid with
    | none => rw [wait, htbl] at hw; exact absurd hw (by simp)
    | some t0 =>
      rw [wait, htbl] at hw
      simp only [Except.ok.injEq, Prod.mk.injEq, Option.some.injEq] at hw
      obtain ⟨ht, hq2⟩ := hw
      subst hq2
      exact ⟨by simp, fun k hk => by simp [hk]⟩

/-- Task lifecycle states from the spec state machine (INIT, READY,
RUNNING, DONE, FAILED, CANCELLED). -/
inductive TaskState where
  | init
  | ready
  | running
  | done
  | failed
  | cancelled
deriving DecidableEq, Repr

/-- Terminal states of the lifecycle. -/
def TaskState.isTerminal : TaskState → Bool
  | TaskState.done => true
  | TaskState.failed => true
  | TaskState.cancelled => true
  | _ => false

/-- Fields of the C work_queue_task struct read by the accessors under
study.  The struct lives in the C engine, so the lifecycle state and the
stored field contents are unconstrained here: any combination can be
present at the moment a Python accessor runs. -/
structure CTask where
  state : TaskState
  return_status : Int
  resources_measured : Option Nat
deriving DecidableEq, Repr

/-- Embeds the `Task.return_status` property: the body is
`return self._task.return_status`, with no availability guard of any
kind. -/
def Task_return_status (t : CTask) : Int := t.return_status

/-- Embeds the `Task.resources_measured` property: when the stored summary
is falsy (a null pointer, Python `None`) it returns `None`, else the
summary. -/
def Task_resources_measured (t : CTask) : Option Nat :=
  match t.resources_measured with
  | none => none
  | some r => some r

/-- C7 counterexample: the claim would require `return_status` read in a
non-terminal state to fail or yield one fixed unset sentinel.  The
embedded accessor is a total function (the Python body cannot raise), and
two running tasks with different stored fields give different results, so
no such sentinel exists. -/
theorem return_status_no_sentinel :
    ¬ ∃ sentinel : Int, ∀ t : CTask,
        t.state.isTerminal = false → Task_return_status t = sentinel := by
  rintro ⟨s, hs⟩
  have h0 : (0 : Int) = s := hs ⟨TaskState.running, 0, none⟩ rfl
  have h7 : (7 : Int) = s := hs ⟨TaskState.running, 7, none⟩ rfl
  omega

/-- C7 amended: `resources_measured` does return the explicit `None`
sentinel whenever monitoring has not populated a measurement, but the
other post-completion accessors (here `return_status`) pass the stored
field through regardless of the lifecycle state — validity before
completion is a documented caller obligation, not enforced. -/
theorem accessor_passthrough (s1 s2 : TaskState) (rs : Int)
    (rm : Option Nat) (t : CTask) :
    (Task_return_status ⟨s1, rs, rm⟩ = Task_return_status ⟨s2, rs, rm⟩) ∧
    (t.resources_measured = none → Task_resources_measured t = none) ∧
    (Task_resources_measured t = t.resources_measured) := by
  refine ⟨rfl, ?_, ?_⟩
  · intro hnone
    simp [Task_resources_measured, hnone]
  · rcases t with ⟨st, rs0, rm0⟩
    cases rm0 <;> rfl

/-- Witness for the amended C7 at concrete tasks: the state does not
change what `return_status` returns, and an unpopulated measurement reads
as `None`. -/
theorem accessor_passthrough_witness :
    (Task_return_status ⟨TaskState.running, 3, none⟩
      = Task_return_status ⟨TaskState.done, 3, none⟩) ∧
    (Task_resources_measured ⟨TaskState.running, 3, none⟩ = none) :=
  ⟨(accessor_passthrough TaskState.running TaskState.done 3 none
      ⟨TaskState.running, 3, none⟩).1,
   (accessor_passthrough TaskState.running TaskState.done 3 none
      ⟨TaskState.running, 3, none⟩).2.1 rfl⟩

/-- Modelled from the spec: the C engine state read by `work_queue_empty`
and `work_queue_hungry`, which are implemented in the C core and only
wrapped by the binding: the ready queue of not-yet-dispatched task ids,
the registry of all task ids in the system, and the maximum number of
tasks the queue can currently support. -/
structure CoreQueue where
  readyQueue : List Nat
  registryIds : List Nat
  maxCapacity : Nat
deriving DecidableEq, Repr

/-- Modelled from the spec: `work_queue_empty` reports 1 when the ready
queue and the task registry are both empty, 0 when tasks remain. -/
def work_queue_empty (c : CoreQueue) : Int :=
  if c.readyQueue = [] ∧ c.registryIds = [] then 1 else 0

/-- Modelled from the spec: `work_queue_hungry` reports the number of
additional tasks the queue can support: the capacity left over by the
tasks already in the system, 0 when none is left. -/
def work_queue_hungry (c : CoreQueue) : Nat :=
  c.maxCapacity - c.registryIds.length

/-- C2: `empty` is 1 exactly when both the ready queue and the registry
are empty; `hungry` is the exact count of additional tasks that still fit
(any load within capacity keeps that many tasks admissible, the total
never exceeds the capacity bound), and it is 0 precisely when no
additional capacity exists. -/
theorem empty_hungry_spec (c : CoreQueue) :
    (work_queue_empty c = 1 ↔ (c.readyQueue = [] ∧ c.registryIds = [])) ∧
    (∀ n : Nat, c.registryIds.length + n ≤ c.maxCapacity →
      n ≤ work_queue_hungry c) ∧
    (c.registryIds.length + work_queue_hungry c
      = max c.maxCapacity c.registryIds.length) ∧
    (work_queue_hungry c = 0 ↔ c.maxCapacity ≤ c.registryIds.length) := by
  refine ⟨?_, ?_, ?_, ?_⟩
  · by_cases hc : (c.readyQueue = [] ∧ c.registryIds = [])
    · rw [work_queue_empty, if_pos hc]
      simp [hc]
    · rw [work_queue_empty, if_neg hc]
      simp [hc]
  · intro n hn
    rw [work_queue_hungry]
    omega
  · rw [work_queue_hungry]
    omega
  · rw [work_queue_hungry]
    omega

/-- Witness for C2 at a concrete core state: 1 task in a 5-task queue
leaves room for 4 more. -/
theorem empty_hungry_spec_witness :
    4 ≤ work_queue_hungry ⟨[], [3], 5⟩ :=
  (empty_hungry_spec ⟨[], [3], 5⟩).2.1 4 (by decide)

/-- Modelled from the spec: a running task as the fast-abort check in the
C core sees it: identity, retry count, elapsed run time, and the host it
runs on. -/
structure RunningTask where
  taskid : Nat
  total_submissions : Nat
  elapsed : Nat
  worker : String
deriving DecidableEq, Repr

/-- Modelled from the spec: the fast-abort configuration held by the C
core: the multiplier set through `activate_fast_abort` or
`tune("fast-abort-multiplier", v)` (negative or zero deactivates), the
established average execution time, and the sample count with its
activation minimum. -/
structure FastAbortConfig where
  multiplier : Int
  avgExecTime : Nat
  sampleCount : Nat
  minSamples : Nat
deriving DecidableEq, Repr

/-- Modelled from the spec: fast abort is active exactly when the
configured multiplier is greater than zero. -/
def fastAbortActive (cfg : FastAbortConfig) : Bool :=
  decide (0 < cfg.multiplier)

/-- Modelled from the spec: a running task is over budget when the minimum
sample count is met and its elapsed time exceeds multiplier times the
established average execution time. -/
def overBudget (cfg : FastAbortConfig) (t : RunningTask) : Bool :=
  decide (cfg.minSamples ≤ cfg.sampleCount) &&
    decide (cfg.multiplier * (cfg.avgExecTime : Int) < (t.elapsed : Int))

/-- Modelled from the spec: one fast-abort sweep of the C core over the
running set: when active, every over-budget task is aborted on its current
worker (removed from the running set) and re-queued with
`total_submissions` incremented; when inactive nothing changes. -/
def fastAbortStep (cfg : FastAbortConfig) (running ready : List RunningTask) :
    List RunningTask × List RunningTask :=
  if fastAbortActive cfg then
    (running.filter (fun t => !(overBudget cfg t)),
     ready ++ (running.filter (fun t => overBudget cfg t)).map
       (fun t => { t with total_submissions := t.total_submissions + 1 }))
  else (running, ready)

/-- C3: fast abort is active iff the multiplier exceeds 0; while inactive
the sweep changes nothing; while active, every running task whose elapsed
time exceeds multiplier times the established average (minimum sample
count met) is aborted on its worker and re-queued with its
`total_submissions` incremented. -/
theorem fast_abort_spec (cfg : FastAbortConfig)
    (running ready : List RunningTask) (t : RunningTask) :
    (fastAbortActive cfg = true ↔ 0 < cfg.multiplier) ∧
    (fastAbortActive cfg = false →
      fastAbortStep cfg running ready = (running, ready)) ∧
    (fastAbortActive cfg = true →
      cfg.minSamples ≤ cfg.sampleCount →
      cfg.multiplier * (cfg.avgExecTime : Int) < (t.elapsed : Int) →
      t ∈ running →
      (t ∉ (fastAbortStep cfg running ready).1 ∧
        { t with total_submissions := t.total_submissions + 1 }
          ∈ (fastAbortStep cfg running ready).2)) := by
  refine ⟨by simp [fastAbortActive], ?_, ?_⟩
  · intro hoff
    rw [fastAbortStep, hoff]
    simp
  · intro hon hsamp helapsed hmem
    have hob : overBudget cfg t = true := by
      rw [overBudget]
      simp [hsamp, helapsed]
    rw [fastAbortStep, hon]
    constructor
    · simp only [if_true, List.mem_filter]
      intro hcontra
      rw [hob] at hcontra
      exact absurd hcontra.2 (by simp)
    · simp only [if_true, List.mem_append, List.mem_map]
      exact Or.inr ⟨t, List.mem_filter.mpr ⟨hmem, hob⟩, rfl⟩

/-- Task of the spec example for fast abort: running for 3 time units. -/
def slowTask : RunningTask :=
  { taskid := 1, total_submissions := 1, elapsed := 3, worker := "w1" }

/-- Witness for C3, the spec example: multiplier 2, established average 1
(minimum sample count met), a task running for more than 2 time units is
aborted and re-queued with its submission count incremented. -/
theorem fast_abort_spec_witness :
    slowTask ∉ (fastAbortStep ⟨2, 1, 3, 3⟩ [slowTask] []).1 ∧
    { slowTask with total_submissions := slowTask.total_submissions + 1 }
      ∈ (fastAbortStep ⟨2, 1, 3, 3⟩ [slowTask] []).2 :=
  (fast_abort_spec ⟨2, 1, 3, 3⟩ [slowTask] [] slowTask).2.2 (by decide)
    (by decide) (by decide) (by decide)

/-- Modelled from the spec: a worker as the selection algorithms in the C
core see it: hostname, free capacity, cache overlap with the candidate
task, and historical average execution time. -/
structure Worker where
  hostname : String
  idleCores : Nat
  cacheOverlap : Nat
  avgTime : Nat
deriving DecidableEq, Repr

/-- Worker-selection algorithms of the dispatch engine. -/
inductive SelectionAlgorithm where
  | fcfs
  | files
  | timed
  | worstFit
  | randomized
deriving DecidableEq, Repr

/-- Modelled from the spec: the candidate set every matching decision
starts from: workers whose host is not on the blacklist (blacklisted
hosts are excluded regardless of the algorithm in force). -/
def eligible (bl : List String) (workers : List Worker) : List Worker :=
  workers.filter (fun w => !(decide (w.hostname ∈ bl)))

/-- Picks a worker maximizing the given score (first on ties). -/
def pickMaxBy (score : Worker → Nat) : List Worker → Option Worker
  | [] => none
  | w :: ws =>
    match pickMaxBy score ws with
    | none => some w
    | some b => if score b ≤ score w then some w else some b

/-- Modelled from the spec: the selection algorithms differ only in how
they rank the eligible workers: first-come-first-served takes the first,
files maximizes cache overlap, time prefers the best (lowest) historical
average time, worst-fit maximizes idleness, random picks a seed-dependent
position. -/
def selectWorker (alg : SelectionAlgorithm) (bl : List String)
    (workers : List Worker) (seed : Nat) : Option Worker :=
  let cand := eligible bl workers
  match alg with
  | SelectionAlgorithm.fcfs => cand.head?
  | SelectionAlgorithm.files => pickMaxBy (fun w => w.cacheOverlap) cand
  | SelectionAlgorithm.timed =>
    let worst := cand.foldl (fun m w => max m w.avgTime) 0
    pickMaxBy (fun w => worst - w.avgTime) cand
  | SelectionAlgorithm.worstFit => pickMaxBy (fun w => w.idleCores) cand
  | SelectionAlgorithm.randomized => cand.get? (seed % cand.length)

/-- Modelled from the spec: `work_queue_blacklist_add` of the C core: puts
the host on the blacklist. -/
def blacklist_add (bl : List String) (host : String) : List String :=
  if host ∈ bl then bl else host :: bl

/-- Modelled from the spec: `work_queue_blacklist_remove` of the C core:
takes the given host off the blacklist. -/
def blacklist_remove (bl : List String) (host : String) : List String :=
  bl.filter (fun h => h != host)

/-- Modelled from the spec: `work_queue_blacklist_clear` of the C core:
empties the blacklist. -/
def blacklist_clear_all (bl : List String) : List String := []

/-- Embeds `WorkQueue.blacklist(host)`: delegates to
`work_queue_blacklist_add`. -/
def blacklist (bl : List String) (host : String) : List String :=
  blacklist_add bl host

/-- Embeds `WorkQueue.blacklist_clear(host=None)`: clears the whole
blacklist when no host is given, otherwise removes only that host. -/
def blacklist_clear (bl : List String) (host : Option String) : List String :=
  match host with
  | none => blacklist_clear_all bl
  | some h => blacklist_remove bl h

/-- A worker returned by `pickMaxBy` comes from the candidate list. -/
theorem pickMaxBy_mem (score : Worker → Nat) (l : List Worker) (w : Worker)
    (h : pickMaxBy score l = some w) : w ∈ l := by
  induction l with
  | nil => exact absurd h (by simp [pickMaxBy])
  | cons a as ih =>
    rw [pickMaxBy] at h
    cases hrec : pickMaxBy score as with
    | none =>
      rw [hrec] at h
      exact (List.mem_cons).mpr (Or.inl (Option.some.inj h).symm)
    | some b =>
      rw [hrec] at h
      have h2 : (if score b ≤ score a then some a else some b) = some w := h
      by_cases hle : score b ≤ score a
      · rw [if_pos hle] at h2
        exact (List.mem_cons).mpr (Or.inl (Option.some.inj h2).symm)
      · rw [if_neg hle] at h2
        have hb : b = w := Option.some.inj h2
        exact (List.mem_cons).mpr (Or.inr (ih (hb ▸ hrec)))

/-- Every selected worker is drawn from the eligible candidate set. -/
theorem selectWorker_mem (alg : SelectionAlgorithm) (bl : List String)
    (workers : List Worker) (seed : Nat) (w : Worker)
    (h : selectWorker alg bl workers seed = some w) :
    w ∈ eligible bl workers := by
  cases alg with
  | fcfs =>
    rw [selectWorker] at h
    cases hc : eligible bl workers with
    | nil => rw [hc] at h; exact absurd h (by simp)
    | cons a as =>
      rw [hc] at h
      simp only [List.head?] at h
      exact (List.mem_cons).mpr (Or.inl (Option.some.inj h).symm)
  | files => exact pickMaxBy_mem _ _ _ h
  | timed => exact pickMaxBy_mem _ _ _ h
  | worstFit => exact pickMaxBy_mem _ _ _ h
  | randomized => exact List.get?_mem h

/-- C4: a host put on the blacklist is on it; as long as a host is on the
blacklist no selection algorithm matches a worker on that host; clearing
with no argument empties the blacklist entirely, and clearing with a host
removes exactly that host, leaving every other host untouched. -/
theorem blacklist_excludes (bl : List String) (workers : List Worker)
    (host h2 : String) (alg : SelectionAlgorithm) (seed : Nat) (w : Worker) :
    (host ∈ blacklist bl host) ∧
    (host ∈ bl → selectWorker alg bl workers seed = some w →
      w.hostname ≠ host) ∧
    (blacklist_clear bl none = []) ∧
    (host ∉ blacklist_clear bl (some host)) ∧
    (h2 ≠ host → (h2 ∈ blacklist_clear bl (some host) ↔ h2 ∈ bl)) := by
  refine ⟨?_, ?_, rfl, ?_, ?_⟩
  · rw [blacklist, blacklist_add]
    by_cases hin : host ∈ bl
    · rw [if_pos hin]; exact hin
    · rw [if_neg hin]; exact List.mem_cons_self host bl
  · intro hbl hsel heq
    have hmem := selectWorker_mem alg bl workers seed w hsel
    rw [eligible, List.mem_filter] at hmem
    rw [heq] at hmem
    simp [hbl] at hmem
  · rw [blacklist_clear, blacklist_remove]
    simp
  · intro hne
    rw [blacklist_clear, blacklist_remove]
    simp [List.mem_filter, hne]

/-- Workers for the C4 witness: one on the blacklisted host, one clean. -/
def workerBad : Worker := { hostname := "bad", idleCores := 9, cacheOverlap := 9, avgTime := 0 }

/-- Clean worker for the C4 witness. -/
def workerGood : Worker := { hostname := "good", idleCores := 1, cacheOverlap := 0, avgTime := 5 }

/-- Witness for C4 at concrete inputs: with host `bad` blacklisted,
first-come-first-served selects the worker on `good` (never `bad`), and
removing `bad` from the blacklist keeps the unrelated host `x`. -/
theorem blacklist_excludes_witness :
    (selectWorker SelectionAlgorithm.fcfs ["bad"] [workerBad, workerGood] 0
        = some workerGood → workerGood.hostname ≠ "bad") ∧
    ("x" ∈ blacklist_clear ["bad", "x"] (some "bad") ↔ "x" ∈ ["bad", "x"]) :=
  ⟨(blacklist_excludes ["bad"] [workerBad, workerGood] "bad" "x"
      SelectionAlgorithm.fcfs 0 workerGood).2.1 (by decide),
   (blacklist_excludes ["bad", "x"] [] "bad" "x"
      SelectionAlgorithm.fcfs 0 workerGood).2.2.2.2 (by decide)⟩

/-- Concrete queue with task 7 registered, used by the C10 witness. -/
def q_one : WorkQueueObj :=
  { _shutdown := false
    _work_queue := some 1
    _stats := some 0
    _stats_hierarchy := some 0
    _task_table := fun k => if k = 7 then some ⟨some 5⟩ else none }

/-- Queue `q_one` after `wait` returned task 7, used by the C10 witness. -/
def q_one_after : WorkQueueObj :=
  { q_one with
      _task_table := fun k => if k = 7 then none else q_one._task_table k }

/-- Witness for C10 at concrete inputs: submit preserves the entry at key
3, and a successful wait on task 7 clears key 7 only. -/
theorem task_table_frame_witness :
    ((submit q_one ⟨some 6⟩ 9).1._task_table 3 = q_one._task_table 3) ∧
    (q_one_after._task_table 7 = none) ∧
    (q_one_after._task_table 3 = q_one._task_table 3) :=
  ⟨(task_table_frame q_one 0 0 0 "" ⟨some 6⟩ 9).2.2.2.1 3 (by decide),
   ((task_table_frame q_one 0 0 0 "" ⟨some 6⟩ 9).2.2.2.2.1 7 ⟨some 5⟩
      q_one_after rfl).1,
   ((task_table_frame q_one 0 0 0 "" ⟨some 6⟩ 9).2.2.2.2.1 7 ⟨some 5⟩
      q_one_after rfl).2 3 (by decide)⟩

end WorkQueueBinding
